import Mathlib

/-
Verification development for the Xano MCP server (`src/xano_mcp_sdk.py`).

The file shallowly embeds the request-building and response-handling logic
of the Python source: every tool function is modelled by a Lean definition
that renders the exact argument tuple it passes to `make_api_request`
(`url`, `headers`, `method`, `data`, `params`, `files`), and the
response-handling half of `make_api_request` is modelled as a pure function
from the transport outcome to the returned JSON value.  Python dictionaries
are modelled as ordered association lists (insertion order is preserved, as
in Python 3.7+), Python `None` as `Option.none`, and Python exceptions
escaping `open`/`read` as the `Except.error` case of an explicit parameter.
-/

/-- JSON values as produced and consumed by the SDK.  Objects are ordered
association lists, mirroring Python dict insertion order. -/
inductive Json where
  | null : Json
  | bool (b : Bool) : Json
  | num (n : Int) : Json
  | str (s : String) : Json
  | arr (elems : List Json) : Json
  | obj (fields : List (String × Json)) : Json

mutual

/-- Structural equality on JSON values, modelling Python `==` on decoded
JSON data. -/
def jsonBeq : Json → Json → Bool
  | Json.null, Json.null => true
  | Json.bool a, Json.bool b => a == b
  | Json.num a, Json.num b => a == b
  | Json.str a, Json.str b => a == b
  | Json.arr xs, Json.arr ys => jsonBeqList xs ys
  | Json.obj xs, Json.obj ys => jsonBeqObj xs ys
  | _, _ => false

/-- Elementwise equality of JSON arrays. -/
def jsonBeqList : List Json → List Json → Bool
  | [], [] => true
  | x :: xs, y :: ys => jsonBeq x y && jsonBeqList xs ys
  | _, _ => false

/-- Entrywise equality of JSON objects (order-sensitive, as list equality). -/
def jsonBeqObj : List (String × Json) → List (String × Json) → Bool
  | [], [] => true
  | kv :: xs, kw :: ys => kv.1 == kw.1 && jsonBeq kv.2 kw.2 && jsonBeqObj xs ys
  | _, _ => false

end

/-- Substring occurrence test on character lists (Python `in` on strings). -/
def listHasInfix (key l : List Char) : Bool :=
  l.tails.any (fun t => key.isPrefixOf t)

/-- Python's `key in value` test as used by the source (`"error" in result`):
key membership for dicts, element membership for lists, substring test for
strings.  On scalar values Python raises `TypeError`; no modelled control
flow reaches that case and it is mapped to `false`. -/
def pyContains (key : String) : Json → Bool
  | Json.obj kvs => kvs.any (fun kv => kv.1 == key)
  | Json.arr xs => xs.any (fun x => jsonBeq x (Json.str key))
  | Json.str s => listHasInfix key.data s.data
  | _ => false

/-- Python dict subscription `value[key]` on a JSON object, as an `Option`. -/
def jsonLookup (key : String) : Json → Option Json
  | Json.obj kvs => (kvs.find? (fun kv => kv.1 == key)).map (fun kv => kv.2)
  | _ => none

/-- A Python value passed to `format_id`: identifiers arrive as `None`, a
string, or an integer. -/
inductive PyVal where
  | none : PyVal
  | str (s : String) : PyVal
  | int (n : Int) : PyVal

/-- Python `str()` on such a value. -/
def pyStr : PyVal → String
  | PyVal.none => "None"
  | PyVal.str s => s
  | PyVal.int n => toString n

/-- The character class stripped by `.strip` in `format_id`: the double
quote (code point 34). -/
def quoteChar (c : Char) : Bool := c = '\"'

/-- Python `str.strip` with the double-quote character set: remove ALL
leading and ALL trailing double-quote characters, at the character-list
level. -/
def stripQuoteChars (l : List Char) : List Char :=
  ((l.dropWhile quoteChar).reverse.dropWhile quoteChar).reverse

/-- Python `s.strip` with the double-quote character set, on strings. -/
def stripQuotes (s : String) : String := String.mk (stripQuoteChars s.data)

/-- `format_id` from the source: `None` passes through, any other value is
coerced with `str()` and stripped of surrounding double quotes. -/
def format_id (id_value : PyVal) : Option String :=
  match id_value with
  | PyVal.none => none
  | v => some (stripQuotes (pyStr v))

/-- `format_id` specialised to the string-typed identifier parameters of the
tool functions (for a string argument, `str()` is the identity). -/
def formatIdStr (s : String) : String := stripQuotes s

/-- Feeding a `format_id` result back in as a Python argument (`None` stays
`None`, a string stays a string). -/
def pyOfOpt : Option String → PyVal
  | none => PyVal.none
  | some s => PyVal.str s

/-- The per-instance Metadata API base URL, computed as in every tool
function: `instance_domain = f"{instance_name}.n7c.xano.io"` followed by
`meta_api = f"https://{instance_domain}/api:meta"`. -/
def meta_api (instance_name : String) : String :=
  "https://" ++ instance_name ++ ".n7c.xano.io/api:meta"

/-- The argument tuple a tool function passes to `make_api_request`: the
rendered request intent.  `files` lists binary parts as
(form field name, file name, file content). -/
structure ApiCall where
  url : String
  headers : List (String × String)
  method : String
  data : Option Json
  params : Option (List (String × Json))
  files : Option (List (String × String × String))

/-- Outcome of the single HTTP exchange inside `make_api_request`: either a
response with a status code and a body (`some payload` when the body parses
as JSON, `none` when `response.json()` raises `JSONDecodeError`), or an
exception raised during the exchange. -/
inductive HttpOutcome where
  | response (status : Nat) (body : Option Json) : HttpOutcome
  | exception (msg : String) : HttpOutcome

/-- The response-handling half of `make_api_request`: status 200 with a
JSON-parseable body returns the decoded payload; status 200 with an
unparseable body returns `{"error": "Failed to parse response as JSON"}`;
any other status returns `{"error": f"API request failed with status {n}"}`;
an exception during the exchange (including the `ValueError` raised for an
unsupported method, which the enclosing `try` also catches) returns
`{"error": f"Exception during API request: {e}"}`.  The function is total:
no failure propagates as a raised error. -/
def make_api_request (outcome : HttpOutcome) : Json :=
  match outcome with
  | HttpOutcome.exception e =>
      Json.obj [("error", Json.str ("Exception during API request: " ++ e))]
  | HttpOutcome.response status body =>
      if status = 200 then
        match body with
        | some payload => payload
        | none => Json.obj [("error", Json.str "Failed to parse response as JSON")]
      else
        Json.obj [("error", Json.str ("API request failed with status " ++ toString status))]

/-- Python truthiness of an optional string argument (`None` and `""` are
falsy), as used by `if branch:`-style guards in the source. -/
def truthyStr : Option String → Bool
  | none => false
  | some s => !s.isEmpty

/-- Python truthiness of an optional dict/list argument (`None` and an empty
collection are falsy). -/
def truthyList {α : Type} : Option (List α) → Bool
  | none => false
  | some l => !l.isEmpty

/-- Render an optional string field into a JSON object fragment exactly when
it is not `None` (the `if x is not None: data[k] = x` pattern). -/
def fieldIfNotNone (key : String) (v : Option Json) : List (String × Json) :=
  match v with
  | some j => [(key, j)]
  | none => []

/-- Render an optional field into a JSON object fragment exactly when it is
Python-truthy (the `if x: data[k] = x` pattern on strings). -/
def fieldIfTruthyStr (key : String) (v : Option String) : List (String × Json) :=
  match v with
  | some s => if s.isEmpty then [] else [(key, Json.str s)]
  | none => []

/-- `os.path.basename` for the POSIX paths used by the upload/import tools:
the final path component after the last slash. -/
def basename (p : String) : String := (p.splitOn "/").getLastD p

/-- Request rendered by `xano_list_instances` (GET `auth/me` against the
global API). -/
def xano_list_instances_call (token : String) : ApiCall :=
  { url := "https://app.xano.com/api:meta/auth/me"
    headers := [("Authorization", "Bearer " ++ token),
                ("Content-Type", "application/json"),
                ("Accept", "application/json")]
    method := "GET"
    data := none
    params := none
    files := none }

/-- The hardcoded fallback instance returned by `xano_list_instances` when
the `auth/me` lookup does not yield instance data. -/
def fallback_instance : Json :=
  Json.obj [("name", Json.str "xnwv-v1z6-dvnr"),
            ("display", Json.str "Robert"),
            ("xano_domain", Json.str "xnwv-v1z6-dvnr.n7c.xano.io"),
            ("rate_limit", Json.bool false),
            ("meta_api", Json.str "https://xnwv-v1z6-dvnr.n7c.xano.io/api:meta"),
            ("meta_swagger", Json.str "https://xnwv-v1z6-dvnr.n7c.xano.io/apispec:meta?type=json")]

/-- Result of `xano_list_instances` as a function of the `auth/me` outcome:
if the dispatched result has no `"error"` key and has an `"instances"` key,
return `{"instances": result["instances"]}`; otherwise return the hardcoded
fallback list.  (Under the guard the `"instances"` key is present, so the
`getD` default is never taken.) -/
def xano_list_instances (outcome : HttpOutcome) : Json :=
  let result := make_api_request outcome
  if !(pyContains "error" result) && pyContains "instances" result then
    Json.obj [("instances", (jsonLookup "instances" result).getD Json.null)]
  else
    Json.obj [("instances", Json.arr [fallback_instance])]

/-- Request rendered by `xano_update_table`: PUT to `.../table/{id}/meta`
with a body holding only the optional fields that are not `None`, in
source order (name, description, docs, auth, tag). -/
def xano_update_table (token instance_name workspace_id table_id : String)
    (name description docs : Option String) (auth : Option Bool)
    (tag : Option (List String)) : ApiCall :=
  { url := meta_api instance_name ++ "/workspace/" ++ formatIdStr workspace_id
            ++ "/table/" ++ formatIdStr table_id ++ "/meta"
    headers := [("Authorization", "Bearer " ++ token),
                ("Content-Type", "application/json"),
                ("Accept", "application/json")]
    method := "PUT"
    data := some (Json.obj
      (fieldIfNotNone "name" (name.map Json.str)
        ++ fieldIfNotNone "description" (description.map Json.str)
        ++ fieldIfNotNone "docs" (docs.map Json.str)
        ++ fieldIfNotNone "auth" (auth.map Json.bool)
        ++ fieldIfNotNone "tag" (tag.map (fun l => Json.arr (l.map Json.str)))))
    params := none
    files := none }

/-- Request rendered by `xano_get_table_schema`: GET `.../table/{id}/schema`. -/
def xano_get_table_schema_call (token instance_name workspace_id table_id : String) : ApiCall :=
  { url := meta_api instance_name ++ "/workspace/" ++ formatIdStr workspace_id
            ++ "/table/" ++ formatIdStr table_id ++ "/schema"
    headers := [("Authorization", "Bearer " ++ token),
                ("Content-Type", "application/json"),
                ("Accept", "application/json")]
    method := "GET"
    data := none
    params := none
    files := none }

/-- Response handling of `xano_get_table_schema`: an error result passes
through, a success is wrapped as `{"schema": result}`. -/
def xano_get_table_schema (outcome : HttpOutcome) : Json :=
  let result := make_api_request outcome
  if pyContains "error" result then result else Json.obj [("schema", result)]

/-- Request rendered by `xano_update_table_schema`: PUT
`.../table/{id}/schema` with body `{"schema": schema}`. -/
def xano_update_table_schema_call (token instance_name workspace_id table_id : String)
    (schema : List Json) : ApiCall :=
  { url := meta_api instance_name ++ "/workspace/" ++ formatIdStr workspace_id
            ++ "/table/" ++ formatIdStr table_id ++ "/schema"
    headers := [("Authorization", "Bearer " ++ token),
                ("Content-Type", "application/json"),
                ("Accept", "application/json")]
    method := "PUT"
    data := some (Json.obj [("schema", Json.arr schema)])
    params := none
    files := none }

/-- The `new_field` dict constructed by `xano_add_field_to_schema`: the
eight base properties in source insertion order, then `default` only when
one is supplied (`if default is not None`), then `validators` only when the
supplied validators are truthy and the field type is `"text"`
(`if validators and field_type == "text"`). -/
def new_field_descriptor (field_name field_type description : String)
    (nullable required : Bool) (access : String) (sensitive : Bool)
    (style : String) (default : Option Json)
    (validators : Option (List (String × Json))) : Json :=
  Json.obj
    ([("name", Json.str field_name),
      ("type", Json.str field_type),
      ("description", Json.str description),
      ("nullable", Json.bool nullable),
      ("required", Json.bool required),
      ("access", Json.str access),
      ("sensitive", Json.bool sensitive),
      ("style", Json.str style)]
      ++ fieldIfNotNone "default" default
      ++ (if truthyList validators && (field_type == "text") then
            [("validators", Json.obj (validators.getD []))]
          else []))

/-- The composite `xano_add_field_to_schema`: formats the ids, issues the
schema read (first component: the rendered GET), and — depending on the
read outcome — either returns the error result (`Sum.inl`), or appends the
newly constructed descriptor to the current schema array and renders the
full-schema replace (`Sum.inr`).  The `Option` is `none` exactly when the
read succeeded but the payload under `"schema"` is not an array, in which
case the Python code raises `AttributeError` on `.append`. -/
def xano_add_field_to_schema (token instance_name workspace_id table_id : String)
    (field_name field_type description : String) (nullable : Bool)
    (default : Option Json) (required : Bool) (access : String)
    (sensitive : Bool) (style : String)
    (validators : Option (List (String × Json)))
    (schemaOutcome : HttpOutcome) : ApiCall × Option (Json ⊕ ApiCall) :=
  let ws := formatIdStr workspace_id
  let tbl := formatIdStr table_id
  let readCall := xano_get_table_schema_call token instance_name ws tbl
  let current_schema_result := xano_get_table_schema schemaOutcome
  if pyContains "error" current_schema_result then
    (readCall, some (Sum.inl current_schema_result))
  else
    match jsonLookup "schema" current_schema_result with
    | some (Json.arr current_schema) =>
        let new_field := new_field_descriptor field_name field_type description
          nullable required access sensitive style default validators
        (readCall, some (Sum.inr (xano_update_table_schema_call token instance_name
          ws tbl (current_schema ++ [new_field]))))
    | _ => (readCall, none)

/-- Request rendered by `xano_browse_table_content`: GET `.../content` with
pagination params and the live data-source header. -/
def xano_browse_table_content (token instance_name workspace_id table_id : String)
    (page per_page : Int) : ApiCall :=
  { url := meta_api instance_name ++ "/workspace/" ++ formatIdStr workspace_id
            ++ "/table/" ++ formatIdStr table_id ++ "/content"
    headers := [("Authorization", "Bearer " ++ token),
                ("Content-Type", "application/json"),
                ("Accept", "application/json"),
                ("X-Data-Source", "live")]
    method := "GET"
    data := none
    params := some [("page", Json.num page), ("per_page", Json.num per_page)]
    files := none }

/-- Request rendered by `xano_search_table_content`: POST
`.../content/search` with page, per_page, the search conditions (an empty
list when the argument is falsy) and a `sort` key only when sort is truthy. -/
def xano_search_table_content (token instance_name workspace_id table_id : String)
    (search_conditions : Option (List Json))
    (sort : Option (List (String × String))) (page per_page : Int) : ApiCall :=
  { url := meta_api instance_name ++ "/workspace/" ++ formatIdStr workspace_id
            ++ "/table/" ++ formatIdStr table_id ++ "/content/search"
    headers := [("Authorization", "Bearer " ++ token),
                ("Content-Type", "application/json"),
                ("Accept", "application/json"),
                ("X-Data-Source", "live")]
    method := "POST"
    data := some (Json.obj
      ([("page", Json.num page), ("per_page", Json.num per_page),
        ("search", Json.arr (match search_conditions with
          | some cs => cs
          | none => []))]
        ++ (if truthyList sort then
              [("sort", Json.obj ((sort.getD []).map (fun kv => (kv.1, Json.str kv.2))))]
            else [])))
    params := none
    files := none }

/-- Request rendered by `xano_get_table_record`: GET `.../content/{rid}`. -/
def xano_get_table_record (token instance_name workspace_id table_id record_id : String) : ApiCall :=
  { url := meta_api instance_name ++ "/workspace/" ++ formatIdStr workspace_id
            ++ "/table/" ++ formatIdStr table_id ++ "/content/" ++ formatIdStr record_id
    headers := [("Authorization", "Bearer " ++ token),
                ("Content-Type", "application/json"),
                ("Accept", "application/json"),
                ("X-Data-Source", "live")]
    method := "GET"
    data := none
    params := none
    files := none }

/-- Request rendered by `xano_create_table_record`: POST `.../content` with
the record data as the body. -/
def xano_create_table_record (token instance_name workspace_id table_id : String)
    (record_data : Json) : ApiCall :=
  { url := meta_api instance_name ++ "/workspace/" ++ formatIdStr workspace_id
            ++ "/table/" ++ formatIdStr table_id ++ "/content"
    headers := [("Authorization", "Bearer " ++ token),
                ("Content-Type", "application/json"),
                ("Accept", "application/json"),
                ("X-Data-Source", "live")]
    method := "POST"
    data := some record_data
    params := none
    files := none }

/-- Request rendered by `xano_update_table_record`: PUT `.../content/{rid}`. -/
def xano_update_table_record (token instance_name workspace_id table_id record_id : String)
    (record_data : Json) : ApiCall :=
  { url := meta_api instance_name ++ "/workspace/" ++ formatIdStr workspace_id
            ++ "/table/" ++ formatIdStr table_id ++ "/content/" ++ formatIdStr record_id
    headers := [("Authorization", "Bearer " ++ token),
                ("Content-Type", "application/json"),
                ("Accept", "application/json"),
                ("X-Data-Source", "live")]
    method := "PUT"
    data := some record_data
    params := none
    files := none }

/-- Request rendered by `xano_delete_table_record`: DELETE `.../content/{rid}`. -/
def xano_delete_table_record (token instance_name workspace_id table_id record_id : String) : ApiCall :=
  { url := meta_api instance_name ++ "/workspace/" ++ formatIdStr workspace_id
            ++ "/table/" ++ formatIdStr table_id ++ "/content/" ++ formatIdStr record_id
    headers := [("Authorization", "Bearer " ++ token),
                ("Content-Type", "application/json"),
                ("Accept", "application/json"),
                ("X-Data-Source", "live")]
    method := "DELETE"
    data := none
    params := none
    files := none }

/-- Request rendered by `xano_search_and_update_records`: POST
`.../content/search/patch` with `{"search": ..., "updates": ...}`. -/
def xano_search_and_update_records (token instance_name workspace_id table_id : String)
    (search_conditions : List Json) (updates : Json) : ApiCall :=
  { url := meta_api instance_name ++ "/workspace/" ++ formatIdStr workspace_id
            ++ "/table/" ++ formatIdStr table_id ++ "/content/search/patch"
    headers := [("Authorization", "Bearer " ++ token),
                ("Content-Type", "application/json"),
                ("Accept", "application/json"),
                ("X-Data-Source", "live")]
    method := "POST"
    data := some (Json.obj [("search", Json.arr search_conditions), ("updates", updates)])
    params := none
    files := none }

/-- Request rendered by `xano_search_and_delete_records`: POST
`.../content/search/delete` with `{"search": ...}`. -/
def xano_search_and_delete_records (token instance_name workspace_id table_id : String)
    (search_conditions : List Json) : ApiCall :=
  { url := meta_api instance_name ++ "/workspace/" ++ formatIdStr workspace_id
            ++ "/table/" ++ formatIdStr table_id ++ "/content/search/delete"
    headers := [("Authorization", "Bearer " ++ token),
                ("Content-Type", "application/json"),
                ("Accept", "application/json"),
                ("X-Data-Source", "live")]
    method := "POST"
    data := some (Json.obj [("search", Json.arr search_conditions)])
    params := none
    files := none }

/-- Request rendered by `xano_bulk_create_records`: POST `.../content/bulk`
with `{"items": records, "allow_id_field": flag}`. -/
def xano_bulk_create_records (token instance_name workspace_id table_id : String)
    (records : List Json) (allow_id_field : Bool) : ApiCall :=
  { url := meta_api instance_name ++ "/workspace/" ++ formatIdStr workspace_id
            ++ "/table/" ++ formatIdStr table_id ++ "/content/bulk"
    headers := [("Authorization", "Bearer " ++ token),
                ("Content-Type", "application/json"),
                ("Accept", "application/json"),
                ("X-Data-Source", "live")]
    method := "POST"
    data := some (Json.obj [("items", Json.arr records),
                            ("allow_id_field", Json.bool allow_id_field)])
    params := none
    files := none }

/-- Request rendered by `xano_bulk_update_records`: POST
`.../content/bulk/patch` with `{"items": updates}`. -/
def xano_bulk_update_records (token instance_name workspace_id table_id : String)
    (updates : List Json) : ApiCall :=
  { url := meta_api instance_name ++ "/workspace/" ++ formatIdStr workspace_id
            ++ "/table/" ++ formatIdStr table_id ++ "/content/bulk/patch"
    headers := [("Authorization", "Bearer " ++ token),
                ("Content-Type", "application/json"),
                ("Accept", "application/json"),
                ("X-Data-Source", "live")]
    method := "POST"
    data := some (Json.obj [("items", Json.arr updates)])
    params := none
    files := none }

/-- Request rendered by `xano_bulk_delete_records`: a POST (not a DELETE) to
`.../content/bulk/delete` with `{"row_ids": record_ids}`. -/
def xano_bulk_delete_records (token instance_name workspace_id table_id : String)
    (record_ids : List String) : ApiCall :=
  { url := meta_api instance_name ++ "/workspace/" ++ formatIdStr workspace_id
            ++ "/table/" ++ formatIdStr table_id ++ "/content/bulk/delete"
    headers := [("Authorization", "Bearer " ++ token),
                ("Content-Type", "application/json"),
                ("Accept", "application/json"),
                ("X-Data-Source", "live")]
    method := "POST"
    data := some (Json.obj [("row_ids", Json.arr (record_ids.map Json.str))])
    params := none
    files := none }

/-- Request rendered by `xano_truncate_table`: DELETE `.../truncate` with
body `{"reset": reset}`. -/
def xano_truncate_table (token instance_name workspace_id table_id : String)
    (reset : Bool) : ApiCall :=
  { url := meta_api instance_name ++ "/workspace/" ++ formatIdStr workspace_id
            ++ "/table/" ++ formatIdStr table_id ++ "/truncate"
    headers := [("Authorization", "Bearer " ++ token),
                ("Content-Type", "application/json"),
                ("Accept", "application/json"),
                ("X-Data-Source", "live")]
    method := "DELETE"
    data := some (Json.obj [("reset", Json.bool reset)])
    params := none
    files := none }

/-- Request rendered by `xano_list_files`: GET `.../file` with pagination
params, optional truthy filters, and — unlike the table-content
operations — no `X-Data-Source` header. -/
def xano_list_files (token instance_name workspace_id : String)
    (page per_page : Int) (search access sort : Option String)
    (order : String) : ApiCall :=
  { url := meta_api instance_name ++ "/workspace/" ++ formatIdStr workspace_id ++ "/file"
    headers := [("Authorization", "Bearer " ++ token),
                ("Content-Type", "application/json"),
                ("Accept", "application/json")]
    method := "GET"
    data := none
    params := some
      ([("page", Json.num page), ("per_page", Json.num per_page)]
        ++ fieldIfTruthyStr "search" search
        ++ fieldIfTruthyStr "access" access
        ++ (if truthyStr sort then
              [("sort", Json.str (sort.getD "")), ("order", Json.str order)]
            else []))
    files := none }

/-- Request rendered by `xano_get_file_details`: GET `.../file/{id}`. -/
def xano_get_file_details (token instance_name workspace_id file_id : String) : ApiCall :=
  { url := meta_api instance_name ++ "/workspace/" ++ formatIdStr workspace_id
            ++ "/file/" ++ formatIdStr file_id
    headers := [("Authorization", "Bearer " ++ token),
                ("Content-Type", "application/json"),
                ("Accept", "application/json")]
    method := "GET"
    data := none
    params := none
    files := none }

/-- Request rendered by `xano_delete_file`: DELETE `.../file/{id}`, without
an `X-Data-Source` header. -/
def xano_delete_file (token instance_name workspace_id file_id : String) : ApiCall :=
  { url := meta_api instance_name ++ "/workspace/" ++ formatIdStr workspace_id
            ++ "/file/" ++ formatIdStr file_id
    headers := [("Authorization", "Bearer " ++ token),
                ("Content-Type", "application/json"),
                ("Accept", "application/json")]
    method := "DELETE"
    data := none
    params := none
    files := none }

/-- Request rendered by `xano_bulk_delete_files`: DELETE `.../file/bulk_delete`
with body `{"ids": file_ids}`. -/
def xano_bulk_delete_files (token instance_name workspace_id : String)
    (file_ids : List String) : ApiCall :=
  { url := meta_api instance_name ++ "/workspace/" ++ formatIdStr workspace_id
            ++ "/file/bulk_delete"
    headers := [("Authorization", "Bearer " ++ token),
                ("Content-Type", "application/json"),
                ("Accept", "application/json")]
    method := "DELETE"
    data := some (Json.obj [("ids", Json.arr (file_ids.map Json.str))])
    params := none
    files := none }

/-- `xano_upload_file`: the local file read either raises (`Except.error`,
yielding an error dict with no request dispatched) or succeeds, in which
case the rendered POST carries only the bearer header (Content-Type is left
to the transport), truthy form fields, and exactly one binary part named
`content`. -/
def xano_upload_file (token instance_name workspace_id file_path : String)
    (file_type file_access : Option String)
    (readResult : Except String String) : Json ⊕ ApiCall :=
  let form_data := fieldIfTruthyStr "type" file_type
    ++ fieldIfTruthyStr "access" file_access
  match readResult with
  | Except.error e =>
      Sum.inl (Json.obj [("error", Json.str ("Error uploading file: " ++ e))])
  | Except.ok file_content =>
      Sum.inr
        { url := meta_api instance_name ++ "/workspace/"
                  ++ formatIdStr workspace_id ++ "/file"
          headers := [("Authorization", "Bearer " ++ token)]
          method := "POST"
          data := some (Json.obj form_data)
          params := none
          files := some [("content", basename file_path, file_content)] }

/-- Request rendered by `xano_export_workspace`: POST `.../export` with a
body holding `branch` and `password` only when truthy. -/
def xano_export_workspace (token instance_name workspace_id : String)
    (branch password : Option String) : ApiCall :=
  { url := meta_api instance_name ++ "/workspace/" ++ formatIdStr workspace_id ++ "/export"
    headers := [("Authorization", "Bearer " ++ token),
                ("Content-Type", "application/json"),
                ("Accept", "application/json")]
    method := "POST"
    data := some (Json.obj (fieldIfTruthyStr "branch" branch
      ++ fieldIfTruthyStr "password" password))
    params := none
    files := none }

/-- `xano_import_workspace`: like `xano_upload_file`, the read either raises
(error dict, no request) or succeeds, yielding a POST to `.../import` with
only the bearer header and exactly one binary part named `file`. -/
def xano_import_workspace (token instance_name workspace_id file_path : String)
    (password : Option String)
    (readResult : Except String String) : Json ⊕ ApiCall :=
  let form_data := fieldIfTruthyStr "password" password
  match readResult with
  | Except.error e =>
      Sum.inl (Json.obj [("error", Json.str ("Error importing workspace: " ++ e))])
  | Except.ok file_content =>
      Sum.inr
        { url := meta_api instance_name ++ "/workspace/"
                  ++ formatIdStr workspace_id ++ "/import"
          headers := [("Authorization", "Bearer " ++ token)]
          method := "POST"
          data := some (Json.obj form_data)
          params := none
          files := some [("file", basename file_path, file_content)] }

/-- `xano_import_workspace_schema`: POST `.../import-schema` with only the
bearer header, the `newbranch`/`setlive` form fields (plus `password` when
truthy), and exactly one binary part named `file`. -/
def xano_import_workspace_schema (token instance_name workspace_id file_path : String)
    (new_branch : String) (set_live : Bool) (password : Option String)
    (readResult : Except String String) : Json ⊕ ApiCall :=
  let form_data := [("newbranch", Json.str new_branch),
                    ("setlive", Json.str (if set_live then "true" else "false"))]
    ++ fieldIfTruthyStr "password" password
  match readResult with
  | Except.error e =>
      Sum.inl (Json.obj [("error", Json.str ("Error importing workspace schema: " ++ e))])
  | Except.ok file_content =>
      Sum.inr
        { url := meta_api instance_name ++ "/workspace/"
                  ++ formatIdStr workspace_id ++ "/import-schema"
          headers := [("Authorization", "Bearer " ++ token)]
          method := "POST"
          data := some (Json.obj form_data)
          params := none
          files := some [("file", basename file_path, file_content)] }

/-- The request a read-then-dispatch tool actually sent, if any: `Sum.inl`
is an early return with no HTTP exchange. -/
def sentCall : Json ⊕ ApiCall → Option ApiCall
  | Sum.inl _ => none
  | Sum.inr c => some c

/-- The keys of the rendered JSON body of a call (empty when there is no
JSON object body). -/
def dataKeys (c : ApiCall) : List String :=
  match c.data with
  | some (Json.obj kvs) => kvs.map (fun kv => kv.1)
  | _ => []

/-- True when no header of the call names `Content-Type` (so no JSON
content type is set and the transport computes the multipart one). -/
def noContentTypeHeader (c : ApiCall) : Bool :=
  c.headers.all (fun kv => kv.1 != "Content-Type")

/-- The number of binary parts attached to a call. -/
def binaryPartCount (c : ApiCall) : Nat := (c.files.getD []).length

theorem dropWhile_head_not (p : Char → Bool) :
    ∀ (l : List Char) (a : Char) (t : List Char),
      List.dropWhile p l = a :: t → p a = false := by
  intro l
  induction l with
  | nil => intro a t h; simp [List.dropWhile] at h
  | cons x xs ih =>
    intro a t h
    rw [List.dropWhile_cons] at h
    by_cases hx : p x
    · rw [if_pos hx] at h
      exact ih a t h
    · rw [if_neg hx] at h
      injection h with h1 h2
      subst h1
      exact Bool.eq_false_iff.mpr hx

theorem dropWhile_idem (p : Char → Bool) (l : List Char) :
    List.dropWhile p (List.dropWhile p l) = List.dropWhile p l := by
  cases hD : List.dropWhile p l with
  | nil => rfl
  | cons a t =>
    rw [List.dropWhile_cons, if_neg]
    simp [dropWhile_head_not p l a t hD]

theorem stripQuoteChars_fixed (l : List Char) :
    List.dropWhile quoteChar (stripQuoteChars l) = stripQuoteChars l := by
  cases hs : stripQuoteChars l with
  | nil => rfl
  | cons c rest =>
    have hsplit := List.takeWhile_append_dropWhile (p := quoteChar)
      (l := (List.dropWhile quoteChar l).reverse)
    have hA : List.dropWhile quoteChar l
        = (List.dropWhile quoteChar (List.dropWhile quoteChar l).reverse).reverse
          ++ ((List.dropWhile quoteChar l).reverse.takeWhile quoteChar).reverse := by
      have h2 := congrArg List.reverse hsplit
      rw [List.reverse_append, List.reverse_reverse] at h2
      exact h2.symm
    rw [show (List.dropWhile quoteChar (List.dropWhile quoteChar l).reverse).reverse
          = c :: rest from hs] at hA
    have hq : quoteChar c = false :=
      dropWhile_head_not quoteChar l c
        (rest ++ ((List.dropWhile quoteChar l).reverse.takeWhile quoteChar).reverse) hA
    rw [List.dropWhile_cons, if_neg]
    simp [hq]

theorem stripQuoteChars_reverse_fixed (l : List Char) :
    List.dropWhile quoteChar (stripQuoteChars l).reverse = (stripQuoteChars l).reverse := by
  unfold stripQuoteChars
  rw [List.reverse_reverse]
  exact dropWhile_idem quoteChar _

theorem stripQuoteChars_idem (l : List Char) :
    stripQuoteChars (stripQuoteChars l) = stripQuoteChars l := by
  show ((List.dropWhile quoteChar (stripQuoteChars l)).reverse.dropWhile quoteChar).reverse
      = stripQuoteChars l
  rw [stripQuoteChars_fixed, stripQuoteChars_reverse_fixed, List.reverse_reverse]

theorem stripQuotes_idem (s : String) : stripQuotes (stripQuotes s) = stripQuotes s :=
  congrArg String.mk (stripQuoteChars_idem s.data)

theorem stripQuoteChars_wrap (l : List Char)
    (h1 : l.head? ≠ some '\"') (h2 : l.getLast? ≠ some '\"') :
    stripQuoteChars ('\"' :: (l ++ ['\"'])) = l := by
  unfold stripQuoteChars
  rw [List.dropWhile_cons, if_pos (by simp [quoteChar])]
  cases l with
  | nil => rfl
  | cons a t =>
    have ha : quoteChar a = false := by
      simp only [List.head?] at h1
      simp [quoteChar]
      intro h; exact h1 (by rw [h])
    rw [show ((a :: t) ++ ['\"']) = a :: (t ++ ['\"']) from rfl,
        List.dropWhile_cons, if_neg (by simp [ha])]
    rw [show (a :: (t ++ ['\"'])).reverse = '\"' :: (a :: t).reverse by
      rw [show a :: (t ++ ['\"']) = (a :: t) ++ ['\"'] from rfl, List.reverse_append]; rfl]
    rw [List.dropWhile_cons, if_pos (by simp [quoteChar])]
    cases hr : (a :: t).reverse with
    | nil => exact absurd (congrArg List.length hr) (by simp)
    | cons b m =>
      have hb : quoteChar b = false := by
        have hbl : (a :: t).getLast? = some b := by
          rw [← List.head?_reverse, hr]; rfl
        simp [quoteChar]
        intro h; rw [h] at hbl; exact h2 hbl
      rw [List.dropWhile_cons, if_neg (by simp [hb]), ← hr, List.reverse_reverse]

theorem status_msg_ne_parse_msg (r : String) :
    ("API request failed with status " ++ r) ≠ "Failed to parse response as JSON" := by
  intro h
  have h2 := congrArg String.data h
  rw [String.data_append] at h2
  have h3 := congrArg (fun l => List.take 3 l) h2
  simp only [List.take_append_of_le_length (by decide :
    (3 : Nat) ≤ "API request failed with status ".data.length)] at h3
  exact absurd h3 (by decide)

/-- C7: identifier normalization is idempotent — for every identifier value
(`None`, string, or int), feeding the result of `format_id` back into
`format_id` returns the same result. -/
theorem format_id_idempotent (id_value : PyVal) :
    format_id (pyOfOpt (format_id id_value)) = format_id id_value := by
  cases id_value with
  | none => rfl
  | str s =>
    show some (stripQuotes (stripQuotes s)) = some (stripQuotes s)
    exact congrArg some (stripQuotes_idem s)
  | int n =>
    show some (stripQuotes (stripQuotes (toString n))) = some (stripQuotes (toString n))
    exact congrArg some (stripQuotes_idem (toString n))

/-- C8 (counterexample): normalization does NOT strip exactly one layer of
surrounding quotes — on the doubly quoted identifier `""7""` it strips both
layers, returning `7` rather than the single-layer result `"7"`. -/
theorem format_id_strips_all_layers :
    format_id (PyVal.str "\"\"7\"\"") = some "7" ∧
      some "7" ≠ some ("\"" ++ "7" ++ "\"") := by
  constructor
  · decide
  · decide

/-- C8 (amended): normalization strips ALL surrounding double-quote
characters; in particular, for an identifier whose string form is a value
wrapped in one pair of double quotes and whose inner value neither starts
nor ends with a quote character, the result is the inner value. -/
theorem format_id_unwraps_quoted (s : String)
    (h1 : s.data.head? ≠ some '\"') (h2 : s.data.getLast? ≠ some '\"') :
    format_id (PyVal.str ("\"" ++ s ++ "\"")) = some s := by
  show some (stripQuotes ("\"" ++ s ++ "\"")) = some s
  congr 1
  show String.mk (stripQuoteChars ("\"" ++ s ++ "\"").data) = s
  have hd : ("\"" ++ s ++ "\"").data = '\"' :: (s.data ++ ['\"']) := by
    rw [String.data_append, String.data_append]
    rfl
  rw [hd, stripQuoteChars_wrap s.data h1 h2]

/-- Witness for C8's amended theorem at the concrete identifier `"x"`. -/
theorem format_id_unwraps_quoted_witness :
    "x".data.head? ≠ some '\"' ∧ "x".data.getLast? ≠ some '\"' ∧
      format_id (PyVal.str ("\"" ++ "x" ++ "\"")) = some "x" :=
  ⟨by decide, by decide, format_id_unwraps_quoted "x" (by decide) (by decide)⟩

/-- C1: for every dispatched request, the result is the decoded JSON payload
exactly when the response has status 200 and a JSON-parseable body; a
non-200 status yields an error value carrying the status code, a 200 with an
unparseable body yields an error value with a different message (so the two
failures are distinguishable), and a transport exception also yields an
error value — `make_api_request` is a total function into JSON data, so no
failure is ever raised to the caller. -/
theorem make_api_request_result_contract (o : HttpOutcome) :
    (∀ payload, o = HttpOutcome.response 200 (some payload) →
      make_api_request o = payload) ∧
    (∀ status body, o = HttpOutcome.response status body → status ≠ 200 →
      make_api_request o
        = Json.obj [("error",
            Json.str ("API request failed with status " ++ toString status))]) ∧
    (o = HttpOutcome.response 200 none →
      make_api_request o
        = Json.obj [("error", Json.str "Failed to parse response as JSON")]) ∧
    (∀ e, o = HttpOutcome.exception e →
      make_api_request o
        = Json.obj [("error", Json.str ("Exception during API request: " ++ e))]) ∧
    (∀ status : Nat, ("API request failed with status " ++ toString status)
        ≠ "Failed to parse response as JSON") := by
  refine ⟨?_, ?_, ?_, ?_, ?_⟩
  · intro payload h
    subst h
    rfl
  · intro status body h hne
    subst h
    simp [make_api_request, hne]
  · intro h
    subst h
    rfl
  · intro e h
    subst h
    rfl
  · intro status
    exact status_msg_ne_parse_msg (toString status)

/-- Witness for C1 at concrete outcomes: a 200 with payload `{"a": 1}`
returns the payload, and a 404 returns the status-tagged error value. -/
theorem make_api_request_result_contract_witness :
    make_api_request (HttpOutcome.response 200 (some (Json.obj [("a", Json.num 1)])))
        = Json.obj [("a", Json.num 1)] ∧
      make_api_request (HttpOutcome.response 404 (some (Json.obj [("a", Json.num 1)])))
        = Json.obj [("error", Json.str ("API request failed with status " ++ toString (404 : Nat)))] :=
  ⟨(make_api_request_result_contract
      (HttpOutcome.response 200 (some (Json.obj [("a", Json.num 1)])))).1
      (Json.obj [("a", Json.num 1)]) rfl,
    (make_api_request_result_contract
      (HttpOutcome.response 404 (some (Json.obj [("a", Json.num 1)])))).2.1
      404 (some (Json.obj [("a", Json.num 1)])) rfl (by decide)⟩

/-- C2 (counterexample): the file operations do NOT send the
`X-Data-Source: live` header — `xano_list_files` and `xano_delete_file`
render only the bearer/JSON headers. -/
theorem file_ops_missing_live_header :
    ("X-Data-Source", "live")
        ∉ (xano_list_files "token" "inst" "1" 1 50 none none none "desc").headers ∧
      ("X-Data-Source", "live") ∉ (xano_delete_file "token" "inst" "1" "2").headers := by
  constructor
  · decide
  · decide

/-- C2 (amended): every operation touching live table content or records —
browse, search, single-record get/create/update/delete, search-and-update,
search-and-delete, bulk create/update/delete, truncate — sends the
`X-Data-Source: live` header in addition to the bearer authorization and
JSON headers; the file operations (list, details, delete, bulk delete,
upload) do not send it. -/
theorem live_data_source_header_coverage
    (token inst ws tbl rid fid path order content : String)
    (page per_page : Int) (record_data updates : Json)
    (conds records updatesL : List Json) (condsO : Option (List Json))
    (sortD : Option (List (String × String))) (record_ids file_ids : List String)
    (allow_id reset : Bool) (searchS accessS sortS ftype faccess : Option String) :
    ("X-Data-Source", "live")
        ∈ (xano_browse_table_content token inst ws tbl page per_page).headers ∧
    ("X-Data-Source", "live")
        ∈ (xano_search_table_content token inst ws tbl condsO sortD page per_page).headers ∧
    ("X-Data-Source", "live") ∈ (xano_get_table_record token inst ws tbl rid).headers ∧
    ("X-Data-Source", "live")
        ∈ (xano_create_table_record token inst ws tbl record_data).headers ∧
    ("X-Data-Source", "live")
        ∈ (xano_update_table_record token inst ws tbl rid record_data).headers ∧
    ("X-Data-Source", "live") ∈ (xano_delete_table_record token inst ws tbl rid).headers ∧
    ("X-Data-Source", "live")
        ∈ (xano_search_and_update_records token inst ws tbl conds updates).headers ∧
    ("X-Data-Source", "live")
        ∈ (xano_search_and_delete_records token inst ws tbl conds).headers ∧
    ("X-Data-Source", "live")
        ∈ (xano_bulk_create_records token inst ws tbl records allow_id).headers ∧
    ("X-Data-Source", "live")
        ∈ (xano_bulk_update_records token inst ws tbl updatesL).headers ∧
    ("X-Data-Source", "live")
        ∈ (xano_bulk_delete_records token inst ws tbl record_ids).headers ∧
    ("X-Data-Source", "live") ∈ (xano_truncate_table token inst ws tbl reset).headers ∧
    ("X-Data-Source", "live")
        ∉ (xano_list_files token inst ws page per_page searchS accessS sortS order).headers ∧
    ("X-Data-Source", "live") ∉ (xano_get_file_details token inst ws fid).headers ∧
    ("X-Data-Source", "live") ∉ (xano_delete_file token inst ws fid).headers ∧
    ("X-Data-Source", "live") ∉ (xano_bulk_delete_files token inst ws file_ids).headers ∧
    ((sentCall (xano_upload_file token inst ws path ftype faccess
        (Except.ok content))).map ApiCall.headers)
      = some [("Authorization", "Bearer " ++ token)] := by
  refine ⟨?_, ?_, ?_, ?_, ?_, ?_, ?_, ?_, ?_, ?_, ?_, ?_, ?_, ?_, ?_, ?_, ?_⟩
  · simp [xano_browse_table_content]
  · simp [xano_search_table_content]
  · simp [xano_get_table_record]
  · simp [xano_create_table_record]
  · simp [xano_update_table_record]
  · simp [xano_delete_table_record]
  · simp [xano_search_and_update_records]
  · simp [xano_search_and_delete_records]
  · simp [xano_bulk_create_records]
  · simp [xano_bulk_update_records]
  · simp [xano_bulk_delete_records]
  · simp [xano_truncate_table]
  · simp [xano_list_files]
  · simp [xano_get_file_details]
  · simp [xano_delete_file]
  · simp [xano_bulk_delete_files]
  · rfl

/-- C4: for the update/create operations with optional fields, an argument
whose value is `None` never contributes a key to the rendered JSON body —
shown for every optional field of `xano_update_table` (name, description,
docs, auth, tag) and of `xano_export_workspace` (branch, password), with all
other optional arguments arbitrary. -/
theorem none_optional_fields_absent (token inst ws tbl : String)
    (name description docs : Option String) (auth : Option Bool)
    (tag : Option (List String)) (branch password : Option String) :
    "name" ∉ dataKeys (xano_update_table token inst ws tbl none description docs auth tag) ∧
    "description" ∉ dataKeys (xano_update_table token inst ws tbl name none docs auth tag) ∧
    "docs" ∉ dataKeys (xano_update_table token inst ws tbl name description none auth tag) ∧
    "auth" ∉ dataKeys (xano_update_table token inst ws tbl name description docs none tag) ∧
    "tag" ∉ dataKeys (xano_update_table token inst ws tbl name description docs auth none) ∧
    "branch" ∉ dataKeys (xano_export_workspace token inst ws none password) ∧
    "password" ∉ dataKeys (xano_export_workspace token inst ws branch none) := by
  refine ⟨?_, ?_, ?_, ?_, ?_, ?_, ?_⟩
  · rcases description with _ | d <;> rcases docs with _ | dd <;>
      rcases auth with _ | a <;> rcases tag with _ | t <;>
      simp [dataKeys, xano_update_table, fieldIfNotNone]
  · rcases name with _ | n <;> rcases docs with _ | dd <;>
      rcases auth with _ | a <;> rcases tag with _ | t <;>
      simp [dataKeys, xano_update_table, fieldIfNotNone]
  · rcases name with _ | n <;> rcases description with _ | d <;>
      rcases auth with _ | a <;> rcases tag with _ | t <;>
      simp [dataKeys, xano_update_table, fieldIfNotNone]
  · rcases name with _ | n <;> rcases description with _ | d <;>
      rcases docs with _ | dd <;> rcases tag with _ | t <;>
      simp [dataKeys, xano_update_table, fieldIfNotNone]
  · rcases name with _ | n <;> rcases description with _ | d <;>
      rcases docs with _ | dd <;> rcases auth with _ | a <;>
      simp [dataKeys, xano_update_table, fieldIfNotNone]
  · rcases password with _ | p
    · simp [dataKeys, xano_export_workspace, fieldIfTruthyStr]
    · by_cases hp : p.isEmpty <;>
        simp [dataKeys, xano_export_workspace, fieldIfTruthyStr, hp]
  · rcases branch with _ | b
    · simp [dataKeys, xano_export_workspace, fieldIfTruthyStr]
    · by_cases hb : b.isEmpty <;>
        simp [dataKeys, xano_export_workspace, fieldIfTruthyStr, hb]

/-- C5: the three operations declaring a binary attachment (file upload,
workspace import, workspace schema import) render, when the local read
succeeds, a request with no `Content-Type` header (so no JSON content type
is ever set) and exactly one binary part. -/
theorem binary_attachment_requests (token inst ws path new_branch content : String)
    (file_type file_access password : Option String) (set_live : Bool) :
    ((sentCall (xano_upload_file token inst ws path file_type file_access
        (Except.ok content))).map
        (fun c => (noContentTypeHeader c, binaryPartCount c))) = some (true, 1) ∧
    ((sentCall (xano_import_workspace token inst ws path password
        (Except.ok content))).map
        (fun c => (noContentTypeHeader c, binaryPartCount c))) = some (true, 1) ∧
    ((sentCall (xano_import_workspace_schema token inst ws path new_branch set_live
        password (Except.ok content))).map
        (fun c => (noContentTypeHeader c, binaryPartCount c))) = some (true, 1) := by
  refine ⟨rfl, rfl, rfl⟩

/-- C6 (counterexample): bulk-deleting records is NOT rendered as a DELETE
request — `xano_bulk_delete_records` sends its selector set in the body of
a POST to `.../content/bulk/delete`. -/
theorem bulk_delete_records_not_delete_method :
    (xano_bulk_delete_records "token" "inst" "1" "2" ["3", "4"]).method = "POST" ∧
      (xano_bulk_delete_records "token" "inst" "1" "2" ["3", "4"]).method ≠ "DELETE" := by
  constructor
  · rfl
  · decide

/-- C6 (amended): bulk-deleting files and truncating a table send their
selector set in the body of a DELETE request — in particular, bulk-deleting
files with ids `["1","2"]` renders a DELETE with body `{"ids":["1","2"]}` —
while bulk-deleting records sends its selector set in the body of a POST to
the `.../content/bulk/delete` endpoint. -/
theorem bulk_delete_and_truncate_transport (token inst ws tbl : String)
    (file_ids record_ids : List String) (reset : Bool) :
    (xano_bulk_delete_files token inst ws file_ids).method = "DELETE" ∧
    (xano_bulk_delete_files token inst ws file_ids).data
      = some (Json.obj [("ids", Json.arr (file_ids.map Json.str))]) ∧
    (xano_bulk_delete_files token inst ws ["1", "2"]).data
      = some (Json.obj [("ids", Json.arr [Json.str "1", Json.str "2"])]) ∧
    (xano_truncate_table token inst ws tbl reset).method = "DELETE" ∧
    (xano_truncate_table token inst ws tbl reset).data
      = some (Json.obj [("reset", Json.bool reset)]) ∧
    (xano_bulk_delete_records token inst ws tbl record_ids).method = "POST" ∧
    (xano_bulk_delete_records token inst ws tbl record_ids).data
      = some (Json.obj [("row_ids", Json.arr (record_ids.map Json.str))]) := by
  refine ⟨rfl, rfl, rfl, rfl, rfl, rfl, rfl⟩

/-- C10: when the local file read raises, the upload and import operations
return a dictionary carrying an `"error"` key describing the local
exception, and dispatch no HTTP request (`sentCall` is `none`). -/
theorem read_failure_returns_error_without_dispatch
    (token inst ws path : String) (file_type file_access password : Option String)
    (e : String) :
    xano_upload_file token inst ws path file_type file_access (Except.error e)
      = Sum.inl (Json.obj [("error", Json.str ("Error uploading file: " ++ e))]) ∧
    xano_import_workspace token inst ws path password (Except.error e)
      = Sum.inl (Json.obj [("error", Json.str ("Error importing workspace: " ++ e))]) ∧
    pyContains "error"
      (Json.obj [("error", Json.str ("Error uploading file: " ++ e))]) = true ∧
    pyContains "error"
      (Json.obj [("error", Json.str ("Error importing workspace: " ++ e))]) = true ∧
    sentCall (xano_upload_file token inst ws path file_type file_access
      (Except.error e)) = none ∧
    sentCall (xano_import_workspace token inst ws path password
      (Except.error e)) = none := by
  refine ⟨rfl, rfl, rfl, rfl, rfl, rfl⟩

/-- C3: on a successful schema read (HTTP 200 with an array payload that
does not spuriously trip the `"error" in result` membership test), the
composite add-field operation first issues the schema read and then issues
a full-schema replace whose array is the current schema extended by exactly
the one newly constructed descriptor; the extended array is one longer and
its last element is that descriptor, which carries a `default` key exactly
when a default is supplied and a `validators` key only when the field type
is `"text"`. -/
theorem add_field_to_schema_appends
    (token inst ws tbl fname ftype desc : String) (nullable : Bool)
    (default : Option Json) (required : Bool) (access : String)
    (sensitive : Bool) (style : String)
    (validators : Option (List (String × Json))) (xs : List Json) (nf : Json)
    (h : pyContains "error" (Json.arr xs) = false)
    (hnf : nf = new_field_descriptor fname ftype desc nullable required access
      sensitive style default validators) :
    xano_add_field_to_schema token inst ws tbl fname ftype desc nullable default
        required access sensitive style validators
        (HttpOutcome.response 200 (some (Json.arr xs)))
      = (xano_get_table_schema_call token inst (formatIdStr ws) (formatIdStr tbl),
          some (Sum.inr (xano_update_table_schema_call token inst (formatIdStr ws)
            (formatIdStr tbl) (xs ++ [nf])))) ∧
    (xs ++ [nf]).length = xs.length + 1 ∧
    (xs ++ [nf]).getLast? = some nf ∧
    ((jsonLookup "default" nf).isSome ↔ default.isSome) ∧
    ((jsonLookup "validators" nf).isSome → ftype = "text") := by
  subst hnf
  refine ⟨?_, ?_, ?_, ?_, ?_⟩
  · have h200 : make_api_request (HttpOutcome.response 200 (some (Json.arr xs)))
        = Json.arr xs := rfl
    have hobj : pyContains "error" (Json.obj [("schema", Json.arr xs)]) = false := rfl
    have hlook : jsonLookup "schema" (Json.obj [("schema", Json.arr xs)])
        = some (Json.arr xs) := rfl
    simp [xano_add_field_to_schema, xano_get_table_schema, h200, h, hobj, hlook]
  · simp
  · exact List.getLast?_concat xs
  · rcases default with _ | d
    · by_cases hv : truthyList validators && (ftype == "text") <;>
        simp [new_field_descriptor, jsonLookup, fieldIfNotNone, hv]
    · simp [new_field_descriptor, jsonLookup, fieldIfNotNone]
  · by_cases hv : truthyList validators && (ftype == "text")
    · intro _
      rw [Bool.and_eq_true] at hv
      exact eq_of_beq hv.2
    · rcases default with _ | d <;>
        simp [new_field_descriptor, jsonLookup, fieldIfNotNone, hv]

/-- Witness for C3 at a concrete one-element schema and a concrete decimal
field descriptor with no default and no validators. -/
theorem add_field_to_schema_appends_witness :
    pyContains "error" (Json.arr [Json.obj [("name", Json.str "id")]]) = false ∧
      ([Json.obj [("name", Json.str "id")]]
          ++ [new_field_descriptor "total" "decimal" "" false false "public"
              false "single" none none]).length
        = [Json.obj [("name", Json.str "id")]].length + 1 :=
  ⟨by decide,
    (add_field_to_schema_appends "tok" "inst" "1" "2" "total" "decimal" ""
      false none false "public" false "single" none
      [Json.obj [("name", Json.str "id")]]
      (new_field_descriptor "total" "decimal" "" false false "public"
        false "single" none none)
      (by decide) rfl).2.1⟩

/-- C9: when the `auth/me` lookup fails (here: HTTP 500), `xano_list_instances`
returns the hardcoded fallback instance list with NO flag marking it as
synthesized — the output carries no `synthesized` or `fallback` marker and
is identical to the output produced by a live 200 response containing the
same data, so it is not distinguishable from live data. -/
theorem list_instances_fallback_not_flagged :
    xano_list_instances (HttpOutcome.response 500 none)
        = Json.obj [("instances", Json.arr [fallback_instance])] ∧
      pyContains "synthesized" (xano_list_instances (HttpOutcome.response 500 none)) = false ∧
      pyContains "synthesized" fallback_instance = false ∧
      pyContains "fallback" fallback_instance = false ∧
      xano_list_instances (HttpOutcome.response 200 (some (Json.obj
          [("instances", Json.arr [fallback_instance])])))
        = xano_list_instances (HttpOutcome.response 500 none) := by
  refine ⟨rfl, rfl, rfl, rfl, rfl⟩
